import Mathlib

/-!
Shallow embedding of `gen-emojis.py`: a three-stage pipeline that fetches
OpenMoji metadata over HTTP, remaps each record into the gitmoji schema,
and serializes the result to `emojis.json`.

Python strings are modelled as `List Char`.  Python's `str.lower` is
modelled per-character by Lean's `Char.toLower` (the upstream data and the
transform only involve the basic-latin range, where the two agree).
Python dicts holding string values are modelled as association lists with
`find?`-based lookup, so a missing key is observable (`KeyError`).
The `requests` transport and the response object are modelled by an
`Except`-wrapped `Response` value whose `jsonBody` field is the result of
JSON-decoding the body (`none` when the body is malformed, in which case
`response.json()` raises).  Logging is modelled as an explicit list of
(level, message) pairs threaded through the functions, and the file write
performed by `save_to_json` is reified as a `WriteOp` value.
-/

/-- A Python string, as a list of characters. -/
abbrev PyStr := List Char

/-- Exceptions the script can raise: `KeyError` from a dict subscript,
`json.JSONDecodeError` from `response.json()`, and a transport-level
`requests.ConnectionError`. -/
inductive PyError where
  | keyError (k : PyStr)
  | jsonDecodeError
  | connectionError
deriving DecidableEq, Repr

/-- A raw upstream record: a Python dict with string keys and string
values, modelled as an association list. -/
structure RawRecord where
  fields : List (PyStr × PyStr)
deriving DecidableEq, Repr

/-- Dict lookup: `d[k]` succeeds iff the key is present. -/
def RawRecord.get (r : RawRecord) (k : PyStr) : Option PyStr :=
  (r.fields.find? (fun p => p.1 = k)).map (fun p => p.2)

/-- `s.replace(' ', '_')` from line 26/28: every space becomes an
underscore (a one-character pattern makes `str.replace` pointwise). -/
def replace_space_underscore (s : PyStr) : PyStr :=
  s.map (fun c => if c = ' ' then '_' else c)

/-- `s.lower()` from line 26/28, modelled per character. -/
def pyLower (s : PyStr) : PyStr :=
  s.map Char.toLower

/-- The record produced for each raw record (lines 23-30). -/
structure MappedEmojiRecord where
  emoji : PyStr
  entity : PyStr
  code : PyStr
  description : PyStr
  name : PyStr
  semver : Option PyStr
deriving DecidableEq, Repr

/-- The body of the loop in `map_to_schema` (lines 23-30): build the
mapped dict, evaluating the subscripts in source order (`emoji`, then
`hexcode`, then `annotation`); a missing key raises `KeyError`. -/
def mapOne (r : RawRecord) : Except PyError MappedEmojiRecord :=
  match r.get "emoji".toList with
  | none => .error (.keyError "emoji".toList)
  | some e =>
    match r.get "hexcode".toList with
    | none => .error (.keyError "hexcode".toList)
    | some h =>
      match r.get "annotation".toList with
      | none => .error (.keyError "annotation".toList)
      | some a =>
        .ok {
          emoji := e
          entity := "&#x".toList ++ h ++ ";".toList
          code := ":".toList ++ pyLower (replace_space_underscore a) ++ ":".toList
          description := a
          name := pyLower (replace_space_underscore a)
          semver := none }

/-- `map_to_schema` (lines 20-31): map every record in order, the first
raised `KeyError` propagating out of the loop. -/
def map_to_schema : List RawRecord → Except PyError (List MappedEmojiRecord)
  | [] => .ok []
  | r :: rs =>
    match mapOne r with
    | .error e => .error e
    | .ok m =>
      match map_to_schema rs with
      | .error e => .error e
      | .ok ms => .ok (m :: ms)

/-! ### Writer (`save_to_json`, lines 33-39) -/

/-- JSON values, as passed to `json.dump`. -/
inductive Json where
  | null
  | str (s : PyStr)
  | arr (xs : List Json)
  | obj (kvs : List (PyStr × Json))

/-- The dict literal built for each mapped record, as a JSON object in
source key order; the Python `None` in `semver` becomes JSON `null`. -/
def MappedEmojiRecord.toJson (m : MappedEmojiRecord) : Json :=
  .obj [("emoji".toList, .str m.emoji),
        ("entity".toList, .str m.entity),
        ("code".toList, .str m.code),
        ("description".toList, .str m.description),
        ("name".toList, .str m.name),
        ("semver".toList, match m.semver with | none => .null | some s => .str s)]

/-- Keyword arguments of the `json.dump` call (line 38). -/
structure DumpConfig where
  ensure_ascii : Bool
  indent : Nat
deriving DecidableEq, Repr

/-- The file write performed by `save_to_json`: the path, the `open` mode
character, the JSON value dumped and the dump configuration. -/
structure WriteOp where
  path : PyStr
  mode : Char
  content : Json
  config : DumpConfig

/-- Log levels used by the script. -/
inductive LogLevel where
  | info
  | error
deriving DecidableEq, Repr

/-- A log record: level and message. -/
abbrev LogEntry := LogLevel × PyStr

/-- `save_to_json` (lines 33-39): open the output file in mode `w` and
dump the two-key object with `ensure_ascii=False, indent=4`, then log an
info message naming the file. -/
def save_to_json (mapped_emojis : List MappedEmojiRecord) (output_file : PyStr) :
    WriteOp × LogEntry :=
  ({ path := output_file
     mode := 'w'
     content := .obj [("$schema".toList, .str "https://gitmoji.dev/api/gitmojis/schema".toList),
                      ("gitmojis".toList, .arr (mapped_emojis.map MappedEmojiRecord.toJson))]
     config := { ensure_ascii := false, indent := 4 } },
   (.info, "Emojis saved to ".toList ++ output_file))

/-- A file system: contents by path; a file written by the script holds a
dumped JSON value together with the dump configuration. -/
def FileSystem := PyStr → Option (Json × DumpConfig)

/-- The effect of a write performed via `open(path, 'w')`: the previous
content at the path, if any, is discarded unconditionally. -/
def applyWrite (fs : FileSystem) (op : WriteOp) : FileSystem :=
  fun p => if p = op.path then some (op.content, op.config) else fs p

/-! ### Fetcher (`fetch_openmoji_data`, lines 12-18) -/

/-- The response object returned by `requests.get`: the HTTP status code
and the JSON decoding of the body (`none` when the body is malformed, in
which case `response.json()` raises `json.JSONDecodeError`).  The decoded
value is the expected sequence of raw records. -/
structure Response where
  status_code : Nat
  jsonBody : Option (List RawRecord)
deriving DecidableEq, Repr

/-- The fixed URL constant (line 10). -/
def url : PyStr := "https://openmoji.org/data/openmoji.json.gz".toList

/-- `fetch_openmoji_data` (lines 12-18).  The transport argument is the
outcome of `requests.get`: `.error` when the GET itself raises (network
failure), `.ok resp` otherwise.  On status 200 the body is decoded
(raising on malformed JSON); on any other status an error naming only the
URL is logged and `None` is returned. -/
def fetch_openmoji_data (u : PyStr) (transport : Except PyError Response)
    (log : List LogEntry) : Except PyError (Option (List RawRecord)) × List LogEntry :=
  match transport with
  | .error e => (.error e, log)
  | .ok resp =>
    if resp.status_code = 200 then
      match resp.jsonBody with
      | some v => (.ok (some v), log)
      | none => (.error .jsonDecodeError, log)
    else
      (.ok none, log ++ [(.error, "Failed to fetch data from ".toList ++ u)])

/-! ### Entry point (lines 41-52) -/

/-- The output path constant (line 49). -/
def output_file : PyStr := "emojis.json".toList

/-- The `__main__` block (lines 41-52): fetch, then — only if the fetched
value is truthy (not `None` and not the empty list) — map and save.  The
result is the program outcome (normal exit or uncaught exception), the
write performed if any, and the log produced. -/
def mainRun (transport : Except PyError Response) :
    Except PyError Unit × Option WriteOp × List LogEntry :=
  let log : List LogEntry := [(.info, "Fetching OpenMoji data...".toList)]
  match fetch_openmoji_data url transport log with
  | (.error e, log) => (.error e, none, log)
  | (.ok none, log) => (.ok (), none, log)
  | (.ok (some emojis_data), log) =>
    if emojis_data.isEmpty then (.ok (), none, log)
    else
      let log := log ++ [(.info, "Mapping emojis to the required schema...".toList)]
      match map_to_schema emojis_data with
      | .error e => (.error e, none, log)
      | .ok mapped_emojis =>
        let log := log ++
          [(.info, "Saving mapped emojis to ".toList ++ output_file ++ "...".toList)]
        let saved := save_to_json mapped_emojis output_file
        let log := log ++ [saved.2,
          (.info, "Emojis fetched, mapped, and saved successfully.".toList)]
        (.ok (), some saved.1, log)

/-- Applying the program outcome to a file system: the recorded write, if
any, is performed; otherwise the file system is untouched. -/
def runFileSystem (fs : FileSystem)
    (res : Except PyError Unit × Option WriteOp × List LogEntry) : FileSystem :=
  match res.2.1 with
  | none => fs
  | some op => applyWrite fs op

/-- The grinning-face raw record used by the spec's end-to-end example. -/
def exampleRecord : RawRecord :=
  ⟨[("emoji".toList, "😀".toList), ("hexcode".toList, "1F600".toList),
    ("annotation".toList, "Grinning Face".toList)]⟩

/-- A raw record missing the `hexcode` and `annotation` fields. -/
def missingFieldRecord : RawRecord :=
  ⟨[("emoji".toList, "😀".toList)]⟩

/-- The mapped record for `exampleRecord` (the spec's end-to-end value). -/
def exampleMapped : MappedEmojiRecord :=
  { emoji := "😀".toList
    entity := "&#x1F600;".toList
    code := ":grinning_face:".toList
    description := "Grinning Face".toList
    name := "grinning_face".toList
    semver := none }

/-- A 404 response (body irrelevant; `json()` is never called on it). -/
def resp404 : Response := { status_code := 404, jsonBody := none }

/-- A 200 response whose body is not valid JSON. -/
def respBadJson : Response := { status_code := 200, jsonBody := none }

/-- A 200 response decoding to the empty sequence. -/
def respEmpty : Response := { status_code := 200, jsonBody := some [] }

/-- A 200 response decoding to the one-record example sequence. -/
def respExample : Response := { status_code := 200, jsonBody := some [exampleRecord] }

/-- The empty file system. -/
def emptyFS : FileSystem := fun _ => none

/-! ### Character-level lemmas about the `lower` model -/

theorem toLower_def (c : Char) :
    c.toLower = if c.toNat ≥ 65 ∧ c.toNat ≤ 90 then Char.ofNat (c.toNat + 32) else c := rfl

/-- Lowercasing maps a character to a space only if it was a space. -/
theorem toLower_eq_space_iff (c : Char) : c.toLower = ' ' ↔ c = ' ' := by
  constructor
  · intro h
    rw [toLower_def] at h
    by_cases hc : c.toNat ≥ 65 ∧ c.toNat ≤ 90
    · rw [if_pos hc] at h
      obtain ⟨h1, h2⟩ := hc
      interval_cases hn : c.toNat <;> simp_all
    · rwa [if_neg hc] at h
  · intro h; subst h; decide

/-- Lowercasing a character is idempotent. -/
theorem toLower_idem (c : Char) : c.toLower.toLower = c.toLower := by
  by_cases hc : c.toNat ≥ 65 ∧ c.toNat ≤ 90
  · have h : c.toLower = Char.ofNat (c.toNat + 32) := by rw [toLower_def, if_pos hc]
    rw [h]
    obtain ⟨h1, h2⟩ := hc
    interval_cases hn : c.toNat <;> decide
  · have h : c.toLower = c := by rw [toLower_def, if_neg hc]
    rw [h, h]

/-- Pointwise form of the lower/replace commutation. -/
theorem toLower_replace_comm (c : Char) :
    (if c = ' ' then '_' else c).toLower =
      if c.toLower = ' ' then '_' else c.toLower := by
  by_cases h : c = ' '
  · subst h; decide
  · rw [if_neg h, if_neg (fun hl => h ((toLower_eq_space_iff c).mp hl))]

/-- `lower` and the space-to-underscore replacement commute on strings. -/
theorem pyLower_replace_comm (s : PyStr) :
    pyLower (replace_space_underscore s) = replace_space_underscore (pyLower s) := by
  unfold pyLower replace_space_underscore
  rw [List.map_map, List.map_map]
  exact List.map_congr_left (fun c _ => toLower_replace_comm c)

/-- Inversion for `mapOne`: success determines all three fields and the
shape of the mapped record. -/
theorem mapOne_ok_inv (r : RawRecord) (m : MappedEmojiRecord) (hm : mapOne r = .ok m) :
    ∃ e hx a, r.get "emoji".toList = some e ∧ r.get "hexcode".toList = some hx ∧
      r.get "annotation".toList = some a ∧
      m = { emoji := e
            entity := "&#x".toList ++ hx ++ ";".toList
            code := ":".toList ++ pyLower (replace_space_underscore a) ++ ":".toList
            description := a
            name := pyLower (replace_space_underscore a)
            semver := none } := by
  unfold mapOne at hm
  split at hm
  · simp at hm
  · rename_i e he
    split at hm
    · simp at hm
    · rename_i hx hhx
      split at hm
      · simp at hm
      · rename_i a ha
        refine ⟨e, hx, a, he, hhx, ha, ?_⟩
        injection hm with h
        exact h.symm

/-- `mapOne` succeeds whenever the three required fields are present. -/
theorem mapOne_ok_of_present (r : RawRecord)
    (he : (r.get "emoji".toList).isSome) (hh : (r.get "hexcode".toList).isSome)
    (ha : (r.get "annotation".toList).isSome) : ∃ m, mapOne r = .ok m := by
  obtain ⟨e, he⟩ := Option.isSome_iff_exists.mp he
  obtain ⟨hx, hh⟩ := Option.isSome_iff_exists.mp hh
  obtain ⟨a, ha⟩ := Option.isSome_iff_exists.mp ha
  refine ⟨{ emoji := e
            entity := "&#x".toList ++ hx ++ ";".toList
            code := ":".toList ++ pyLower (replace_space_underscore a) ++ ":".toList
            description := a
            name := pyLower (replace_space_underscore a)
            semver := none }, ?_⟩
  unfold mapOne
  simp only [he, hh, ha]

/-- `mapOne` fails with a `KeyError` when a required field is missing. -/
theorem mapOne_error_of_missing (r : RawRecord)
    (h : r.get "emoji".toList = none ∨ r.get "hexcode".toList = none ∨
      r.get "annotation".toList = none) : ∃ k, mapOne r = .error (.keyError k) := by
  unfold mapOne
  cases he : r.get "emoji".toList with
  | none => exact ⟨_, rfl⟩
  | some e =>
    cases hh : r.get "hexcode".toList with
    | none => exact ⟨_, rfl⟩
    | some hx =>
      cases ha : r.get "annotation".toList with
      | none => exact ⟨_, rfl⟩
      | some a =>
        rw [he, hh, ha] at h
        rcases h with h | h | h <;> exact absurd h (by simp)

/-- `mapOne` only ever fails with a `KeyError`. -/
theorem mapOne_error_shape (r : RawRecord) (e : PyError) (h : mapOne r = .error e) :
    ∃ k, e = PyError.keyError k := by
  unfold mapOne at h
  split at h
  · exact ⟨_, (by injection h with h; exact h.symm)⟩
  · split at h
    · exact ⟨_, (by injection h with h; exact h.symm)⟩
    · split at h
      · exact ⟨_, (by injection h with h; exact h.symm)⟩
      · simp at h

/-- No space survives replace-then-lower. -/
theorem space_not_mem_lower_replace (a : PyStr) :
    ' ' ∉ pyLower (replace_space_underscore a) := by
  unfold pyLower replace_space_underscore
  intro h
  rw [List.mem_map] at h
  obtain ⟨c, hc, hlc⟩ := h
  rw [toLower_eq_space_iff] at hlc
  rw [List.mem_map] at hc
  obtain ⟨d, _, hdc⟩ := hc
  by_cases hd : d = ' '
  · rw [if_pos hd] at hdc
    exact absurd (hdc.trans hlc) (by decide)
  · rw [if_neg hd] at hdc
    exact hd (hdc.trans hlc)

/-- Lowercasing a string is idempotent. -/
theorem pyLower_idem (s : PyStr) : pyLower (pyLower s) = pyLower s := by
  unfold pyLower
  rw [List.map_map]
  exact List.map_congr_left (fun c _ => toLower_idem c)

/-! ### Claim theorems -/

/-- C10: for every string, lowering after replacing spaces by underscores
(the order the code uses on lines 26 and 28) gives the same string as
replacing spaces by underscores after lowering (the order in the spec's
transform rules), so the two orderings of the `code`/`name` computation
coincide. -/
theorem C10_lower_replace_order_equivalent (a : PyStr) :
    pyLower (replace_space_underscore a) = replace_space_underscore (pyLower a) :=
  pyLower_replace_comm a

/-- C1: for a raw record carrying `emoji`, `hexcode` and `annotation`,
`mapOne` produces the record with emoji copied verbatim, `entity` equal to
`&#x` + hexcode + `;`, `code` equal to `:` + the lowercased annotation
with spaces replaced by underscores + `:`, `name` equal to the lowercased
annotation with spaces replaced by underscores, `description` the
annotation unchanged, and `semver` null. -/
theorem C1_mapped_record_fields (r : RawRecord) (e hx a : PyStr)
    (he : r.get "emoji".toList = some e)
    (hh : r.get "hexcode".toList = some hx)
    (ha : r.get "annotation".toList = some a) :
    mapOne r = .ok {
      emoji := e
      entity := "&#x".toList ++ hx ++ ";".toList
      code := ":".toList ++ replace_space_underscore (pyLower a) ++ ":".toList
      description := a
      name := replace_space_underscore (pyLower a)
      semver := none } := by
  unfold mapOne
  simp only [he, hh, ha]
  rw [pyLower_replace_comm]

/-- Witness for C1 at the spec's grinning-face example record. -/
theorem C1_mapped_record_fields_witness :
    mapOne exampleRecord = .ok {
      emoji := "😀".toList
      entity := "&#x1F600;".toList
      code := ":grinning_face:".toList
      description := "Grinning Face".toList
      name := "grinning_face".toList
      semver := none } :=
  C1_mapped_record_fields exampleRecord "😀".toList "1F600".toList "Grinning Face".toList
    rfl rfl rfl

/-- C2: a successful `map_to_schema` run returns a list of the same
length as its input, and the record at every position `i` is exactly the
value of the pure per-record function `mapOne` on raw record `i`. -/
theorem C2_length_order_pointwise (data : List RawRecord) (l : List MappedEmojiRecord)
    (hok : map_to_schema data = .ok l) :
    l.length = data.length ∧
    ∀ i (hi : i < data.length) (hl : i < l.length),
      mapOne (data.get ⟨i, hi⟩) = .ok (l.get ⟨i, hl⟩) := by
  induction data generalizing l with
  | nil =>
    unfold map_to_schema at hok
    injection hok with h
    subst h
    exact ⟨rfl, fun i hi _ => absurd hi (by simp)⟩
  | cons r rs ih =>
    unfold map_to_schema at hok
    split at hok
    · simp at hok
    · rename_i m hm
      split at hok
      · simp at hok
      · rename_i ms hms
        injection hok with h
        subst h
        obtain ⟨hlen, hpt⟩ := ih ms hms
        refine ⟨by simpa using hlen, fun i hi hl => ?_⟩
        match i with
        | 0 => simpa using hm
        | j + 1 => exact hpt j (by simpa using hi) (by simpa using hl)

/-- Witness for C2 on the one-record example input. -/
theorem C2_length_order_pointwise_witness :
    [exampleMapped].length = [exampleRecord].length ∧
    ∀ i (hi : i < [exampleRecord].length) (hl : i < [exampleMapped].length),
      mapOne ([exampleRecord].get ⟨i, hi⟩) = .ok ([exampleMapped].get ⟨i, hl⟩) :=
  C2_length_order_pointwise [exampleRecord] [exampleMapped] rfl

/-- C3: `save_to_json` dumps a JSON object whose top-level keys are
exactly `$schema` (bound to the fixed schema URL) and `gitmojis` (bound to
the mapped sequence), with `ensure_ascii=False` (non-ASCII written
literally), 4-space indentation, and `open` mode `w`; and the write
replaces whatever the file system previously held at the output path,
whatever that was. -/
theorem C3_writer_output (m : List MappedEmojiRecord) (p : PyStr) :
    (save_to_json m p).1.content =
      Json.obj [("$schema".toList, .str "https://gitmoji.dev/api/gitmojis/schema".toList),
                ("gitmojis".toList, .arr (m.map MappedEmojiRecord.toJson))] ∧
    (save_to_json m p).1.config.ensure_ascii = false ∧
    (save_to_json m p).1.config.indent = 4 ∧
    (save_to_json m p).1.mode = 'w' ∧
    (save_to_json m p).1.path = p ∧
    ∀ fs : FileSystem, applyWrite fs (save_to_json m p).1 p =
      some ((save_to_json m p).1.content, (save_to_json m p).1.config) :=
  ⟨rfl, rfl, rfl, rfl, rfl, fun _ => by unfold applyWrite save_to_json; simp⟩

/-- C4 (part of the statement): `map_to_schema` on a list of records that
all carry the three required fields: no other validation can fail, the
result is `ok`, keeps the input length, and is the per-record map (no
deduplication, no sorting). -/
theorem map_to_schema_ok_of_present (data : List RawRecord)
    (h : ∀ r ∈ data, (r.get "emoji".toList).isSome ∧ (r.get "hexcode".toList).isSome ∧
      (r.get "annotation".toList).isSome) :
    ∃ l, map_to_schema data = .ok l ∧ l.length = data.length := by
  induction data with
  | nil => exact ⟨[], rfl, rfl⟩
  | cons r rs ih =>
    obtain ⟨he, hh, ha⟩ := h r (by simp)
    obtain ⟨m, hm⟩ := mapOne_ok_of_present r he hh ha
    obtain ⟨l, hl, hlen⟩ := ih (fun x hx => h x (by simp [hx]))
    refine ⟨m :: l, ?_, by simpa using hlen⟩
    unfold map_to_schema
    rw [hm, hl]

/-- C4 (part of the statement): `map_to_schema` propagates a `KeyError`
when some record misses a required field. -/
theorem map_to_schema_error_of_missing (data : List RawRecord)
    (h : ∃ r ∈ data, r.get "emoji".toList = none ∨ r.get "hexcode".toList = none ∨
      r.get "annotation".toList = none) :
    ∃ k, map_to_schema data = .error (.keyError k) := by
  induction data with
  | nil => simp at h
  | cons r rs ih =>
    obtain ⟨x, hx, hmiss⟩ := h
    rcases List.mem_cons.mp hx with hx | hx
    · subst hx
      obtain ⟨k, hk⟩ := mapOne_error_of_missing x hmiss
      refine ⟨k, ?_⟩
      unfold map_to_schema
      rw [hk]
    · cases hm : mapOne r with
      | error e =>
        obtain ⟨k, hk⟩ := mapOne_error_shape r e hm
        refine ⟨k, ?_⟩
        unfold map_to_schema
        rw [hm, hk]
      | ok m =>
        obtain ⟨k, hk⟩ := ih ⟨x, hx, hmiss⟩
        refine ⟨k, ?_⟩
        unfold map_to_schema
        rw [hm, hk]

/-- C4: the Mapper propagates a `KeyError` exactly when some record lacks
one of `emoji`, `hexcode`, `annotation`; when every record carries all
three, nothing else can fail and the result is the order-preserving
per-record map (no schema-version check, no deduplication, no sorting). -/
theorem C4_field_presence_only_validation (data : List RawRecord) :
    ((∃ r ∈ data, r.get "emoji".toList = none ∨ r.get "hexcode".toList = none ∨
        r.get "annotation".toList = none) →
      ∃ k, map_to_schema data = .error (.keyError k)) ∧
    ((∀ r ∈ data, (r.get "emoji".toList).isSome ∧ (r.get "hexcode".toList).isSome ∧
        (r.get "annotation".toList).isSome) →
      ∃ l, map_to_schema data = .ok l ∧ l.length = data.length) :=
  ⟨map_to_schema_error_of_missing data, map_to_schema_ok_of_present data⟩

/-- Witness for C4: the error half on a record missing `hexcode` and
`annotation`, the success half on the example record. -/
theorem C4_field_presence_only_validation_witness :
    (∃ k, map_to_schema [missingFieldRecord] = .error (.keyError k)) ∧
    (∃ l, map_to_schema [exampleRecord] = .ok l ∧ l.length = [exampleRecord].length) :=
  ⟨(C4_field_presence_only_validation [missingFieldRecord]).1
      ⟨missingFieldRecord, by simp, Or.inr (Or.inl rfl)⟩,
   (C4_field_presence_only_validation [exampleRecord]).2
      (fun r hr => by
        rw [List.mem_singleton.mp hr]
        exact ⟨rfl, rfl, rfl⟩)⟩

/-- C8: when mapping a record whose annotation is present and non-empty
succeeds, the resulting `name` and `code` contain no space character and
are lowercase (fixed points of the `lower` model). -/
theorem C8_name_code_no_space_lowercase (r : RawRecord) (a : PyStr) (m : MappedEmojiRecord)
    (ha : r.get "annotation".toList = some a) (_hne : a ≠ [])
    (hm : mapOne r = .ok m) :
    ' ' ∉ m.name ∧ ' ' ∉ m.code ∧ pyLower m.name = m.name ∧ pyLower m.code = m.code := by
  obtain ⟨e, hx, a2, _, _, ha2, hmEq⟩ := mapOne_ok_inv r m hm
  rw [ha] at ha2
  injection ha2 with ha2
  subst ha2
  subst hmEq
  refine ⟨space_not_mem_lower_replace a, ?_, pyLower_idem _, ?_⟩
  · intro hsp
    simp only [List.mem_append] at hsp
    rcases hsp with (hsp | hsp) | hsp
    · exact absurd hsp (by decide)
    · exact space_not_mem_lower_replace a hsp
    · exact absurd hsp (by decide)
  · show pyLower (":".toList ++ pyLower (replace_space_underscore a) ++ ":".toList) = _
    unfold pyLower
    rw [List.map_append, List.map_append]
    rw [show List.map Char.toLower ":".toList = ":".toList from rfl]
    rw [show List.map Char.toLower (List.map Char.toLower (replace_space_underscore a)) =
      List.map Char.toLower (replace_space_underscore a) from pyLower_idem _]

/-- Witness for C8 at the grinning-face example. -/
theorem C8_name_code_no_space_lowercase_witness :
    ' ' ∉ exampleMapped.name ∧ ' ' ∉ exampleMapped.code ∧
    pyLower exampleMapped.name = exampleMapped.name ∧
    pyLower exampleMapped.code = exampleMapped.code :=
  C8_name_code_no_space_lowercase exampleRecord "Grinning Face".toList exampleMapped
    rfl (by decide) rfl

/-- C5 counterexample: for the 404 response at the fixed URL, the fetch
returns `None` and logs exactly one error message; that message contains
no digit at all, so it does not identify the status 404 as the claim
asserts. -/
theorem C5_counterexample :
    (fetch_openmoji_data url (.ok resp404) []).1 = .ok none ∧
    (fetch_openmoji_data url (.ok resp404) []).2 =
      [(.error, "Failed to fetch data from ".toList ++ url)] ∧
    ∀ c ∈ "Failed to fetch data from ".toList ++ url, c.isDigit = false := by
  refine ⟨rfl, rfl, ?_⟩
  decide

/-- C5 (amended): on HTTP 200 with a well-formed body, the fetch returns
the decoded value unchanged; on any non-200 status it logs an error whose
message names the URL (but not the status) and returns `None` instead of
raising. -/
theorem C5_fetch_url_only_error (u : PyStr) (resp : Response) (log : List LogEntry) :
    (resp.status_code = 200 → ∀ v, resp.jsonBody = some v →
      fetch_openmoji_data u (.ok resp) log = (.ok (some v), log)) ∧
    (resp.status_code ≠ 200 →
      fetch_openmoji_data u (.ok resp) log =
        (.ok none, log ++ [(.error, "Failed to fetch data from ".toList ++ u)]) ∧
      u <:+ "Failed to fetch data from ".toList ++ u) := by
  constructor
  · intro h200 v hv
    simp only [fetch_openmoji_data]
    rw [if_pos h200, hv]
  · intro hne
    refine ⟨?_, List.suffix_append _ _⟩
    simp only [fetch_openmoji_data]
    rw [if_neg hne]

/-- Witness for C5 (amended): the 200 branch at the example response, the
non-200 branch at the 404 response. -/
theorem C5_fetch_url_only_error_witness :
    fetch_openmoji_data url (.ok respExample) [] = (.ok (some [exampleRecord]), []) ∧
    (fetch_openmoji_data url (.ok resp404) [] =
      (.ok none, [] ++ [(.error, "Failed to fetch data from ".toList ++ url)]) ∧
      url <:+ "Failed to fetch data from ".toList ++ url) :=
  ⟨(C5_fetch_url_only_error url respExample []).1 rfl [exampleRecord] rfl,
   (C5_fetch_url_only_error url resp404 []).2 (by decide)⟩

/-- C6: when the fetch fails with a non-200 status, the program exits
normally, performs no write, and leaves every file system unchanged —
mapping and writing are skipped entirely. -/
theorem C6_fetch_failure_no_output (resp : Response) (h : resp.status_code ≠ 200) :
    (mainRun (.ok resp)).1 = .ok () ∧
    (mainRun (.ok resp)).2.1 = none ∧
    ∀ fs : FileSystem, runFileSystem fs (mainRun (.ok resp)) = fs := by
  have hm : mainRun (.ok resp) =
      (.ok (), none, [(.info, "Fetching OpenMoji data...".toList),
        (.error, "Failed to fetch data from ".toList ++ url)]) := by
    simp only [mainRun, fetch_openmoji_data]
    rw [if_neg h]
    rfl
  rw [hm]
  exact ⟨rfl, rfl, fun fs => rfl⟩

/-- Witness for C6 at the 404 response and the empty file system. -/
theorem C6_fetch_failure_no_output_witness :
    (mainRun (.ok resp404)).1 = .ok () ∧
    (mainRun (.ok resp404)).2.1 = none ∧
    runFileSystem emptyFS (mainRun (.ok resp404)) = emptyFS :=
  ⟨(C6_fetch_failure_no_output resp404 (by decide)).1,
   (C6_fetch_failure_no_output resp404 (by decide)).2.1,
   (C6_fetch_failure_no_output resp404 (by decide)).2.2 emptyFS⟩

/-- C7 counterexample: a 200 response with a malformed JSON body is a
FetchError, and it halts the pipeline as an uncaught
`json.JSONDecodeError`; but the resulting log is exactly the initial info
message — no error is ever logged, contradicting the claim that every
FetchError is logged. -/
theorem C7_counterexample :
    (mainRun (.ok respBadJson)).1 = .error .jsonDecodeError ∧
    (mainRun (.ok respBadJson)).2.1 = none ∧
    (mainRun (.ok respBadJson)).2.2 = [(.info, "Fetching OpenMoji data...".toList)] ∧
    ((mainRun (.ok respBadJson)).2.2.all (fun en => en.1 == LogLevel.info)) = true :=
  ⟨rfl, rfl, rfl, rfl⟩

/-- C7 (amended): a non-200 response is the only FetchError that is
logged, and it ends the run normally with nothing written; a malformed
JSON body on a 200 response and a transport-level network failure both
halt the pipeline as uncaught exceptions, with no write and with no error
entry ever logged. -/
theorem C7_fetch_error_logging (resp : Response) :
    (resp.status_code ≠ 200 →
      mainRun (.ok resp) =
        (.ok (), none, [(.info, "Fetching OpenMoji data...".toList),
          (.error, "Failed to fetch data from ".toList ++ url)])) ∧
    (resp.status_code = 200 → resp.jsonBody = none →
      mainRun (.ok resp) =
        (.error .jsonDecodeError, none, [(.info, "Fetching OpenMoji data...".toList)])) ∧
    ∀ e, mainRun (.error e) = (.error e, none, [(.info, "Fetching OpenMoji data...".toList)]) := by
  refine ⟨fun h => ?_, fun h200 hbody => ?_, fun e => rfl⟩
  · simp only [mainRun, fetch_openmoji_data]
    rw [if_neg h]
    rfl
  · simp only [mainRun, fetch_openmoji_data]
    rw [if_pos h200, hbody]

/-- Witness for C7 (amended): the three branches at the 404 response, the
malformed-body response, and a connection error. -/
theorem C7_fetch_error_logging_witness :
    mainRun (.ok resp404) =
      (.ok (), none, [(.info, "Fetching OpenMoji data...".toList),
        (.error, "Failed to fetch data from ".toList ++ url)]) ∧
    mainRun (.ok respBadJson) =
      (.error .jsonDecodeError, none, [(.info, "Fetching OpenMoji data...".toList)]) ∧
    mainRun (.error .connectionError) =
      (.error .connectionError, none, [(.info, "Fetching OpenMoji data...".toList)]) :=
  ⟨(C7_fetch_error_logging resp404).1 (by decide),
   (C7_fetch_error_logging respBadJson).2.1 rfl rfl,
   (C7_fetch_error_logging respBadJson).2.2 .connectionError⟩

/-- C9: a successful fetch whose decoded value is the empty sequence is
treated like a fetch failure: the run ends normally, nothing is mapped or
written, and every file system is left unchanged — no file with an empty
`gitmojis` array is produced. -/
theorem C9_empty_sequence_no_output (resp : Response)
    (h200 : resp.status_code = 200) (hbody : resp.jsonBody = some []) :
    (mainRun (.ok resp)).1 = .ok () ∧
    (mainRun (.ok resp)).2.1 = none ∧
    ∀ fs : FileSystem, runFileSystem fs (mainRun (.ok resp)) = fs := by
  have hm : mainRun (.ok resp) =
      (.ok (), none, [(.info, "Fetching OpenMoji data...".toList)]) := by
    simp only [mainRun, fetch_openmoji_data]
    rw [if_pos h200, hbody]
    rfl
  rw [hm]
  exact ⟨rfl, rfl, fun fs => rfl⟩

/-- Witness for C9 at the empty-sequence response and the empty file
system. -/
theorem C9_empty_sequence_no_output_witness :
    (mainRun (.ok respEmpty)).1 = .ok () ∧
    (mainRun (.ok respEmpty)).2.1 = none ∧
    runFileSystem emptyFS (mainRun (.ok respEmpty)) = emptyFS :=
  ⟨(C9_empty_sequence_no_output respEmpty rfl rfl).1,
   (C9_empty_sequence_no_output respEmpty rfl rfl).2.1,
   (C9_empty_sequence_no_output respEmpty rfl rfl).2.2 emptyFS⟩
